import Mathlib

/-!
Shallow embedding of the query-filter translation and response-normalization
layer of the NYC restaurant finder repository: the server endpoint
(`src/examples/cloud_run_agent.py`) and the CLI client
(`src/nyc_restaurant_finder/agent_client.py`, `models.py`).

Python strings are modelled as Lean `String`; Python floats as `ℚ`
(the claims under study only concern presence/absence and equality of these
values, never rounding); Python `None` as `Option.none`; raised exceptions
as `Except.error`.
-/

namespace NYCRF

set_option maxRecDepth 10000

/-- `startsWithSeq n h`: `n` is a prefix of `h` (character lists). -/

def startsWithSeq : List Char → List Char → Bool
  | [], _ => true
  | _ :: _, [] => false
  | a :: as, b :: bs => a == b && startsWithSeq as bs

/-- `containsSeq n h`: `n` occurs contiguously inside `h`.  Models Python's
`n in h` on strings. -/

def containsSeq (n : List Char) : List Char → Bool
  | [] => startsWithSeq n []
  | b :: bs => startsWithSeq n (b :: bs) || containsSeq n bs

/-! ### SQL LIKE

`likeMatch pat s` evaluates the SQL `LIKE` operator: `%` matches any
(possibly empty) run of characters, `_` matches exactly one character,
every other pattern character matches itself. -/

def likeMatch : List Char → List Char → Bool
  | [], s => s.isEmpty
  | p :: ps, s =>
    if p = '%' then
      likeMatch ps s ||
        (match s with
         | [] => false
         | _ :: s' => likeMatch (p :: ps) s')
    else
      match s with
      | [] => false
      | c :: s' => if p = '_' then likeMatch ps s' else p == c && likeMatch ps s'
termination_by pat s => pat.length + s.length

/-- A pattern is literal when it contains no LIKE metacharacter. -/

def noWildcards (s : List Char) : Bool := s.all fun c => c ≠ '%' && c ≠ '_'

/-! ### Python string / value primitives -/

/-- Python `str.upper()` (ASCII case mapping, as in the data at hand). -/

def upperStr (s : String) : String := ⟨s.data.map Char.toUpper⟩

/-- Python `str.lower()`. -/

def lowerStr (s : String) : String := ⟨s.data.map Char.toLower⟩

/-- A raw warehouse cell value as seen by the row-normalization loop of
`query_restaurants`: SQL NULL, a string, an integer, a float (as `ℚ`),
or a date object whose `isoformat()` is the stored string. -/

inductive RawVal
  | null
  | str (s : String)
  | int (n : Int)
  | num (q : ℚ)
  | date (iso : String)
  deriving DecidableEq

/-- Python truthiness of a raw value (`if row.get(...)`). -/

def RawVal.truthy : RawVal → Bool
  | .null => false
  | .str s => s ≠ ""
  | .int n => n ≠ 0
  | .num q => q ≠ 0
  | .date _ => true

def digitsToNat (cs : List Char) : Nat :=
  cs.foldl (fun a c => a * 10 + (c.toNat - 48)) 0

/-- Decimal forms accepted by Python `float()` (optional fraction); exponent
and special forms (`inf`, `nan`) are elided — no claim depends on them. -/

def parseDecimal (cs : List Char) : Option ℚ :=
  match cs.span Char.isDigit with
  | (ip, rest) =>
    match rest with
    | [] => if ip.isEmpty then none else some (digitsToNat ip)
    | '.' :: fp =>
      if fp.all Char.isDigit && (!ip.isEmpty || !fp.isEmpty) then
        some ((digitsToNat ip : ℚ) + (digitsToNat fp : ℚ) / ((10 : ℚ) ^ fp.length))
      else none
    | _ => none

/-- Leading/trailing whitespace stripping performed by Python `float()`. -/

def stripChars (cs : List Char) : List Char :=
  ((cs.dropWhile Char.isWhitespace).reverse.dropWhile Char.isWhitespace).reverse

def parsePyFloat (s : String) : Option ℚ :=
  match stripChars s.data with
  | '-' :: rest => (parseDecimal rest).map (fun q => -q)
  | '+' :: rest => parseDecimal rest
  | cs => parseDecimal cs

/-- Python `float(v)`: floats and ints convert; strings convert only when
numeric-like (otherwise `ValueError`); `None` and dates raise `TypeError`. -/

def pyFloat : RawVal → Except String ℚ
  | .num q => .ok q
  | .int n => .ok n
  | .str s =>
    match parsePyFloat s with
    | some q => .ok q
    | none => .error "ValueError: could not convert string to float"
  | .null => .error "TypeError: float() argument must not be None"
  | .date _ => .error "TypeError: float() argument must not be a date"

/-- Python `v.isoformat()`: defined on date objects, raises otherwise. -/

def pyIsoformat : RawVal → Except String String
  | .date iso => .ok iso
  | _ => .error "AttributeError: object has no attribute isoformat"

/-! ### Server configuration (`cloud_run_agent.py` env defaults) -/

def BQ_TABLE : String := "bigquery-public-data.new_york.restaurant_grades"

def DEFAULT_LIMIT : Int := 100

def MAX_LIMIT : Int := 500

/-- The raw `limit` member of the JSON payload, abstracted by how `int(value)`
treats it: convertible inputs are represented by their converted integer. -/

inductive LimitInput
  | intLike (n : Int)
  | notIntLike
  deriving DecidableEq

/-- `_coerce_limit` of `cloud_run_agent.py`. -/

def coerceLimit : Option LimitInput → Int
  | none => DEFAULT_LIMIT
  | some .notIntLike => DEFAULT_LIMIT
  | some (.intLike n) => max 1 (min n MAX_LIMIT)

/-- `GRADE_LADDER` dict of `cloud_run_agent.py` (`.get` lookup). -/

def GRADE_LADDER (g : String) : Option (List String) :=
  if g = "A" then some ["A"]
  else if g = "B" then some ["A", "B"]
  else if g = "C" then some ["A", "B", "C"]
  else none

/-- The JSON body of a `/query` request, with the fields the server reads. -/

structure Payload where
  borough : Option String := none
  cuisine : Option String := none
  min_grade : Option String := none
  limit : Option LimitInput := none
  deriving DecidableEq

/-! ### Query builder (`_build_query_and_params`)

A predicate carries its SQL text fragment (value-independent) together with
its bound parameter, mirroring the parameterized-query discipline of the
source: the value never appears in the text. -/

inductive Param
  | scalarStr (name value : String)
  | scalarInt (name : String) (value : Int)
  | arrayStr (name : String) (values : List String)
  deriving DecidableEq

inductive SqlPred
  | trueLit
  | boroughEq (value : String)
  | cuisineLike (pattern : String)
  | gradeIn (values : List String)
  deriving DecidableEq

/-- The SQL text fragment appended to the WHERE list: a fixed string per
predicate shape, independent of the bound value. -/

def SqlPred.text : SqlPred → String
  | .trueLit => "1=1"
  | .boroughEq _ => "UPPER(boro) = @borough"
  | .cuisineLike _ => "UPPER(cuisine_description) LIKE @cuisine"
  | .gradeIn _ => "grade IN UNNEST(@grades)"

/-- The bound query parameter contributed by a predicate. -/

def SqlPred.param : SqlPred → Option Param
  | .trueLit => none
  | .boroughEq v => some (.scalarStr "borough" v)
  | .cuisineLike pat => some (.scalarStr "cuisine" pat)
  | .gradeIn vs => some (.arrayStr "grades" vs)

/-- A raw warehouse row over the fixed column set of the query. -/

structure RawRow where
  dba : RawVal := .null
  boro : RawVal := .null
  building : RawVal := .null
  street : RawVal := .null
  zipcode : RawVal := .null
  phone : RawVal := .null
  cuisine_description : RawVal := .null
  inspection_date : RawVal := .null
  action : RawVal := .null
  violation_code : RawVal := .null
  violation_description : RawVal := .null
  critical_flag : RawVal := .null
  score : RawVal := .null
  grade : RawVal := .null
  grade_date : RawVal := .null
  record_date : RawVal := .null
  inspection_type : RawVal := .null
  latitude : RawVal := .null
  longitude : RawVal := .null
  deriving DecidableEq

/-- SQL evaluation of one predicate against a row.  A SQL comparison, `LIKE`
or `IN` applied to NULL yields NULL, which excludes the row — modelled as
`false`; the string columns hold `.str` values in the warehouse schema, any
other shape likewise fails to compare. -/

def SqlPred.eval (r : RawRow) : SqlPred → Bool
  | .trueLit => true
  | .boroughEq v =>
    match r.boro with
    | .str s => upperStr s == v
    | _ => false
  | .cuisineLike pat =>
    match r.cuisine_description with
    | .str s => likeMatch pat.data (upperStr s).data
    | _ => false
  | .gradeIn vs =>
    match r.grade with
    | .str g => vs.contains g
    | _ => false

/-- `if borough: where.append("UPPER(boro) = @borough")` — Python truthiness
guards the field. -/

def boroughPreds : Option String → List SqlPred
  | some b => if b ≠ "" then [.boroughEq (upperStr b)] else []
  | none => []

/-- `if cuisine: where.append("UPPER(cuisine_description) LIKE @cuisine")`
with bound pattern `%{UPPER(cuisine)}%`. -/

def cuisinePreds : Option String → List SqlPred
  | some c => if c ≠ "" then [.cuisineLike ("%" ++ upperStr c ++ "%")] else []
  | none => []

/-- `if min_grade: grades = GRADE_LADDER.get(str(min_grade).upper()); if
grades: where.append("grade IN UNNEST(@grades)")`.  The ladder lists are
non-empty, so Python's `if grades:` is their `Option.isSome`. -/

def gradePreds : Option String → List SqlPred
  | some g =>
    if g ≠ "" then
      match GRADE_LADDER (upperStr g) with
      | some grades => [.gradeIn grades]
      | none => []
    else []
  | none => []

/-- The WHERE-clause predicate list of `_build_query_and_params`, built in
source order: base `1=1`, borough, cuisine, grade ladder. -/

def buildPredicates (p : Payload) : List SqlPred :=
  [.trueLit] ++ boroughPreds p.borough ++ cuisinePreds p.cuisine ++
    gradePreds p.min_grade

/-- The bound-parameter list: one parameter per value-bearing predicate, in
source order, with the coerced limit always appended last. -/

def buildParams (p : Payload) : List Param :=
  ((buildPredicates p).filterMap SqlPred.param) ++
    [.scalarInt "limit" (coerceLimit p.limit)]

def joinAnd : List String → String
  | [] => ""
  | [c] => c
  | c :: cs => c ++ " AND " ++ joinAnd cs

/-- The final query text of `_build_query_and_params` (surrounding whitespace
and newlines of the Python f-string elided).  The only interpolations in the
source are the table name and the joined WHERE fragments. -/

def queryText (p : Payload) : String :=
  "SELECT dba, boro, building, street, zipcode, phone, cuisine_description, " ++
  "inspection_date, action, violation_code, violation_description, " ++
  "critical_flag, score, grade, grade_date, record_date, inspection_type, " ++
  "latitude, longitude FROM `" ++ BQ_TABLE ++ "` WHERE " ++
  joinAnd ((buildPredicates p).map SqlPred.text) ++
  " ORDER BY inspection_date DESC LIMIT @limit"

/-- The `applied` summary dict returned alongside the query. -/

structure AppliedFilters where
  borough : Option String
  cuisine : Option String
  min_grade : Option String
  limit : Int
  deriving DecidableEq

def buildApplied (p : Payload) : AppliedFilters :=
  { borough := p.borough, cuisine := p.cuisine, min_grade := p.min_grade,
    limit := coerceLimit p.limit }

/-! ### Warehouse execution semantics

`bq_client.query(...).result()` returns the table rows that satisfy the
WHERE clause, ordered by `inspection_date DESC` (BigQuery places NULLs last
in descending order), truncated by `LIMIT @limit`.  No claim depends on the
tie order of the sort. -/

def evalWhere (preds : List SqlPred) (r : RawRow) : Bool :=
  preds.all (SqlPred.eval r)

def dateKey : RawVal → Option String
  | .date iso => some iso
  | _ => none

/-- `a` sorts no later than `b` under `ORDER BY inspection_date DESC`. -/

def descBefore (a b : RawRow) : Bool :=
  match dateKey a.inspection_date, dateKey b.inspection_date with
  | some x, some y => decide (y ≤ x)
  | some _, none => true
  | none, some _ => false
  | none, none => true

def insertBy (le : α → α → Bool) (x : α) : List α → List α
  | [] => [x]
  | y :: ys => if le x y then x :: y :: ys else y :: insertBy le x ys

def sortBy (le : α → α → Bool) : List α → List α
  | [] => []
  | x :: xs => insertBy le x (sortBy le xs)

def execQuery (p : Payload) (table : List RawRow) : List RawRow :=
  (sortBy descBefore (table.filter (evalWhere (buildPredicates p)))).take
    (coerceLimit p.limit).toNat

/-! ### Result normalization (the row loop of `query_restaurants`) -/

/-- One normalized row, shaped as the dict built per row. -/

structure NormRow where
  dba : RawVal
  boro : RawVal
  building : RawVal
  street : RawVal
  zipcode : RawVal
  phone : RawVal
  cuisine_description : RawVal
  inspection_date : Option String
  action : RawVal
  violation_code : RawVal
  violation_description : RawVal
  critical_flag : RawVal
  score : RawVal
  grade : RawVal
  grade_date : Option String
  record_date : Option String
  inspection_type : RawVal
  latitude : Option ℚ
  longitude : Option ℚ
  deriving DecidableEq

/-- `row.get(f).isoformat() if row.get(f) else None`. -/

def normDate (v : RawVal) : Except String (Option String) :=
  if v.truthy then (pyIsoformat v).map some else .ok none

/-- `float(row.get(f)) if row.get(f) is not None else None`. -/

def normFloat (v : RawVal) : Except String (Option ℚ) :=
  if v = .null then .ok none else (pyFloat v).map some

/-- Normalization of one raw row; any raised conversion error propagates
(there is no per-row handler in the source). -/

def normalizeRow (r : RawRow) : Except String NormRow := do
  let inspection_date ← normDate r.inspection_date
  let grade_date ← normDate r.grade_date
  let record_date ← normDate r.record_date
  let latitude ← normFloat r.latitude
  let longitude ← normFloat r.longitude
  pure { dba := r.dba, boro := r.boro, building := r.building, street := r.street,
         zipcode := r.zipcode, phone := r.phone,
         cuisine_description := r.cuisine_description, inspection_date,
         action := r.action, violation_code := r.violation_code,
         violation_description := r.violation_description,
         critical_flag := r.critical_flag, score := r.score, grade := r.grade,
         grade_date, record_date, inspection_type := r.inspection_type,
         latitude, longitude }

/-- The `for row in results` loop: rows normalized in order inside the single
`try` block, so the first raising row aborts the whole batch. -/

def normalizeAll : List RawRow → Except String (List NormRow)
  | [] => .ok []
  | r :: rs =>
    match normalizeRow r with
    | .error e => .error e
    | .ok n =>
      match normalizeAll rs with
      | .error e => .error e
      | .ok ns => .ok (n :: ns)

/-! ### The `/query` endpoint (`query_restaurants`) -/

/-- State of the module-global `bq_client` and its warehouse: `absent` when
client initialization failed (`bq_client = None`), `failing` when
`query(...).result()` raises, `table` when the warehouse answers from the
given table. -/

inductive BQClient
  | absent
  | failing (e : String)
  | table (rows : List RawRow)

inductive FiltersApplied
  | ofPayload (p : Payload)
  | ofApplied (a : AppliedFilters)
  deriving DecidableEq

/-- The `query_info` dict; `mock_data := none` models the key being absent. -/

structure ServerQueryInfo where
  mock_data : Option Bool := none
  filters_applied : FiltersApplied
  table : String
  deriving DecidableEq

structure ServerResponse where
  restaurants : List NormRow
  total_count : Nat
  query_info : ServerQueryInfo
  deriving DecidableEq

/-- A `/query` HTTP result: 200 with an envelope, or the 500 error object. -/

inductive ServerResult
  | ok (resp : ServerResponse)
  | err (msg : String)
  deriving DecidableEq

/-- The single fixed record of `_mock_response`.  Keys absent from the
literal dict are `.null` / `none` here. -/

def mockServerRow : NormRow :=
  { dba := .str "Joe\x27s Pizza", boro := .str "MANHATTAN",
    building := .str "123", street := .str "Broadway",
    zipcode := .str "10001", phone := .null,
    cuisine_description := .str "Pizza", inspection_date := some "2023-10-15",
    action := .null, violation_code := .null, violation_description := .null,
    critical_flag := .null, score := .int 12, grade := .str "A",
    grade_date := none, record_date := none, inspection_type := .null,
    latitude := some (40.7589 : ℚ), longitude := some (-73.9851 : ℚ) }

/-- `_mock_response(payload)`: a fixed single-record envelope; the filter
payload is echoed but never applied. -/

def mockResponse (p : Payload) : ServerResponse :=
  { restaurants := [mockServerRow], total_count := 1,
    query_info := { mock_data := some true, filters_applied := .ofPayload p,
                    table := BQ_TABLE } }

/-- The `/query` handler: mock envelope only when `bq_client` is `None`;
a raising query or a raising row normalization falls into the outer
`except`, which returns the 500 error object. -/

def queryRestaurants (bq : BQClient) (p : Payload) : ServerResult :=
  match bq with
  | .absent => .ok (mockResponse p)
  | .failing e => .err e
  | .table rows =>
    match normalizeAll (execQuery p rows) with
    | .error e => .err e
    | .ok nrows =>
      .ok { restaurants := nrows, total_count := nrows.length,
            query_info := { filters_applied := .ofApplied (buildApplied p),
                            table := BQ_TABLE } }

/-! ### Client data model (`nyc_restaurant_finder/models.py`) -/

inductive Borough
  | MANHATTAN
  | BROOKLYN
  | QUEENS
  | BRONX
  | STATEN_ISLAND
  deriving DecidableEq, Fintype

/-- The string value of each `Borough` enum member. -/

def Borough.value : Borough → String
  | .MANHATTAN => "MANHATTAN"
  | .BROOKLYN => "BROOKLYN"
  | .QUEENS => "QUEENS"
  | .BRONX => "BRONX"
  | .STATEN_ISLAND => "STATEN ISLAND"

inductive Grade
  | A
  | B
  | C
  | P
  | Z
  deriving DecidableEq, Fintype

def Grade.value : Grade → String
  | .A => "A"
  | .B => "B"
  | .C => "C"
  | .P => "P"
  | .Z => "Z"

/-- Pydantic validation of a raw string against the `Grade` str-enum:
the exact member value is accepted, anything else raises a validation
error naming the field. -/

def validateGrade (s : String) : Except String Grade :=
  if s = "A" then .ok .A
  else if s = "B" then .ok .B
  else if s = "C" then .ok .C
  else if s = "P" then .ok .P
  else if s = "Z" then .ok .Z
  else .error "validation error for QueryRequest: min_grade is not a valid Grade"

/-- Pydantic validation of the optional `min_grade` field of `QueryRequest`. -/

def validateMinGrade : Option String → Except String (Option Grade)
  | none => .ok none
  | some s => (validateGrade s).map some

structure Restaurant where
  dba : String
  boro : Borough
  building : Option String := none
  street : Option String := none
  zipcode : Option String := none
  phone : Option String := none
  cuisine_description : Option String := none
  inspection_date : Option String := none
  action : Option String := none
  violation_code : Option String := none
  violation_description : Option String := none
  critical_flag : Option String := none
  score : Option Int := none
  grade : Option Grade := none
  grade_date : Option String := none
  record_date : Option String := none
  inspection_type : Option String := none
  latitude : Option ℚ := none
  longitude : Option ℚ := none
  deriving DecidableEq

structure QueryRequest where
  borough : Option Borough := none
  cuisine : Option String := none
  min_grade : Option Grade := none
  limit : Int := 100
  deriving DecidableEq

/-- The client-side `query_info` dict (`filters_applied` sub-dict). -/

structure ClientFiltersApplied where
  borough : Option String
  cuisine : Option String
  min_grade : Option String
  deriving DecidableEq

structure ClientQueryInfo where
  mock_data : Option Bool := none
  filters_applied : ClientFiltersApplied
  deriving DecidableEq

structure QueryResponse where
  restaurants : List Restaurant
  total_count : Nat
  query_info : ClientQueryInfo
  deriving DecidableEq

/-! ### Client mock data (`AgentClient._get_mock_data`) -/

def mockRestaurants : List Restaurant :=
  [ { dba := "Joe\x27s Pizza", boro := .MANHATTAN, building := some "123",
      street := some "Broadway", zipcode := some "10001",
      cuisine_description := some "Pizza", grade := some .A, score := some 12,
      inspection_date := some "2023-10-15",
      latitude := some (40.7589 : ℚ), longitude := some (-73.9851 : ℚ) },
    { dba := "Brooklyn Deli", boro := .BROOKLYN, building := some "456",
      street := some "Atlantic Ave", zipcode := some "11201",
      cuisine_description := some "Delicatessen", grade := some .B,
      score := some 18, inspection_date := some "2023-10-14",
      latitude := some (40.6892 : ℚ), longitude := some (-73.9442 : ℚ) },
    { dba := "Queens Bistro", boro := .QUEENS, building := some "789",
      street := some "Northern Blvd", zipcode := some "11101",
      cuisine_description := some "American", grade := some .A,
      score := some 8, inspection_date := some "2023-10-13",
      latitude := some (40.7282 : ℚ), longitude := some (-73.9442 : ℚ) } ]

/-- The `grade_order` dict, looked up with default 5 (`.get(x, 5)`). -/

def gradeOrder (s : String) : Int :=
  if s = "A" then 1
  else if s = "B" then 2
  else if s = "C" then 3
  else if s = "P" then 4
  else if s = "Z" then 5
  else 5

/-- `if request.borough and restaurant.boro != request.borough: continue`. -/

def boroughSkipOk (ob : Option Borough) (r : Restaurant) : Bool :=
  match ob with
  | none => true
  | some b => !(r.boro ≠ b)

/-- `if request.cuisine and request.cuisine.lower() not in
restaurant.cuisine_description.lower(): continue`.  `.lower()` on an absent
cuisine description would raise in Python; the fixed dataset always provides
one, so the absent case (modelled as a skip) is never exercised. -/

def cuisineSkipOk (oc : Option String) (r : Restaurant) : Bool :=
  match oc with
  | none => true
  | some c =>
    if c = "" then true
    else
      match r.cuisine_description with
      | some d => containsSeq (lowerStr c).data (lowerStr d).data
      | none => false

/-- `if request.min_grade: ... if (restaurant.grade and grade_order.get(...)
> grade_order.get(...)): continue`. -/

def gradeSkipOk (om : Option Grade) (r : Restaurant) : Bool :=
  match om with
  | none => true
  | some m =>
    !(match r.grade with
      | some g => gradeOrder g.value > gradeOrder m.value
      | none => false)

/-- One iteration of the mock filtering loop: `false` exactly when one of the
three `continue` guards fires. -/

def mockKeep (req : QueryRequest) (r : Restaurant) : Bool :=
  boroughSkipOk req.borough r && cuisineSkipOk req.cuisine r &&
    gradeSkipOk req.min_grade r

def mockFiltered (req : QueryRequest) : List Restaurant :=
  mockRestaurants.filter (mockKeep req)

/-- Python list slicing `l[:n]` for a possibly negative `n`. -/

def pySliceTo (n : Int) (l : List α) : List α :=
  if 0 ≤ n then l.take n.toNat else l.take (l.length - (-n).toNat)

/-- `AgentClient._get_mock_data`: filter the fixed dataset, truncate the
record list to `request.limit`, but report the pre-truncation count. -/

def getMockData (req : QueryRequest) : QueryResponse :=
  { restaurants := pySliceTo req.limit (mockFiltered req),
    total_count := (mockFiltered req).length,
    query_info :=
      { mock_data := some true,
        filters_applied :=
          { borough := req.borough.map Borough.value,
            cuisine := req.cuisine,
            min_grade := req.min_grade.map Grade.value } } }

/-- `request_data.model_dump(exclude_none=True)` as read by the server. -/

def toPayload (req : QueryRequest) : Payload :=
  { borough := req.borough.map Borough.value,
    cuisine := req.cuisine,
    min_grade := req.min_grade.map Grade.value,
    limit := some (.intLike req.limit) }

/-- Outcome of the HTTP POST from the client's viewpoint: a transport
failure (connection error / timeout), a non-2xx status (turned into a
`RequestException` by `raise_for_status`), or a parsed 200 body. -/

inductive ServerOutcome
  | unreachable
  | httpError (status : Nat)
  | success (resp : QueryResponse)

/-- `AgentClient.query_restaurants`: any `RequestException` is absorbed by
falling back to the client mock data. -/

def clientQueryRestaurants (outcome : ServerOutcome) (req : QueryRequest) :
    QueryResponse :=
  match outcome with
  | .success resp => resp
  | .unreachable => getMockData req
  | .httpError _ => getMockData req

/-! ### The client dataset viewed as warehouse rows

Used to compare the mock filtering with the Query Builder's predicate
semantics (the spec's mock/live consistency property): each dataset record
laid out as the corresponding raw warehouse row. -/

def optStrVal : Option String → RawVal
  | some s => .str s
  | none => .null

def optDateVal : Option String → RawVal
  | some d => .date d
  | none => .null

def restaurantToRow (r : Restaurant) : RawRow :=
  { dba := .str r.dba, boro := .str r.boro.value,
    building := optStrVal r.building, street := optStrVal r.street,
    zipcode := optStrVal r.zipcode, phone := optStrVal r.phone,
    cuisine_description := optStrVal r.cuisine_description,
    inspection_date := optDateVal r.inspection_date,
    action := optStrVal r.action, violation_code := optStrVal r.violation_code,
    violation_description := optStrVal r.violation_description,
    critical_flag := optStrVal r.critical_flag,
    score := match r.score with | some n => .int n | none => .null,
    grade := match r.grade with | some g => .str g.value | none => .null,
    grade_date := optDateVal r.grade_date,
    record_date := optDateVal r.record_date,
    inspection_type := optStrVal r.inspection_type,
    latitude := match r.latitude with | some q => .num q | none => .null,
    longitude := match r.longitude with | some q => .num q | none => .null }

/-- Python truthiness of an optional JSON string field (`if borough:`). -/

def fieldTruthy : Option String → Bool
  | some s => s ≠ ""
  | none => false

/-- Whether the `min_grade` payload field actually activates the grade
predicate: truthy and with a successful ladder lookup. -/

def gradeActive : Option String → Bool
  | some g => if g ≠ "" then (GRADE_LADDER (upperStr g)).isSome else false
  | none => false

/-- A well-formed warehouse row (used as a concrete example). -/

def goodRow : RawRow :=
  { dba := .str "Good Diner", boro := .str "MANHATTAN",
    cuisine_description := .str "American",
    inspection_date := .date "2023-01-02", grade := .str "A",
    latitude := .num 40, longitude := .num (-73) }

/-- A row whose latitude is present but not numeric-like. -/

def badLatRow : RawRow :=
  { dba := .str "Bad Row Cafe", boro := .str "MANHATTAN",
    cuisine_description := .str "Cafe",
    latitude := .str "not-a-number" }

/-! ## Theorems -/

/-! ### Character-level helpers: Python `str.lower`/`str.upper` and SQL LIKE

`str.lower()`/`str.upper()` are modelled by `Char.toLower`/`Char.toUpper`
mapped over the characters (ASCII case mapping).  The lemmas below relate
lower-cased and upper-cased substring tests.
-/

theorem char_toNat_ofNat_valid {n : Nat} (h : n < 55296) : (Char.ofNat n).toNat = n := by
  unfold Char.ofNat
  rw [dif_pos (Or.inl (by exact_mod_cast h))]
  simp [Char.ofNatAux, Char.toNat, UInt32.toNat]

theorem char_toUpper_toLower (c : Char) : c.toLower.toUpper = c.toUpper := by
  unfold Char.toLower Char.toUpper
  by_cases h1 : c.toNat ≥ 65 ∧ c.toNat ≤ 90
  · rw [if_pos h1]
    have hv : (Char.ofNat (c.toNat + 32)).toNat = c.toNat + 32 :=
      char_toNat_ofNat_valid (by omega)
    rw [if_pos (by omega), if_neg (by omega), hv]
    have : c.toNat + 32 - 32 = c.toNat := by omega
    rw [this, Char.ofNat_toNat]
  · rw [if_neg h1]

theorem char_toLower_toUpper (c : Char) : c.toUpper.toLower = c.toLower := by
  by_cases h1 : c.toNat ≥ 97 ∧ c.toNat ≤ 122
  · have hu : c.toUpper = Char.ofNat (c.toNat - 32) := by
      unfold Char.toUpper; rw [if_pos h1]
    have hv : (Char.ofNat (c.toNat - 32)).toNat = c.toNat - 32 :=
      char_toNat_ofNat_valid (by omega)
    have hl : c.toLower = c := by
      unfold Char.toLower; rw [if_neg (by omega)]
    rw [hu, hl]
    unfold Char.toLower
    rw [hv, if_pos (by omega)]
    have h2 : c.toNat - 32 + 32 = c.toNat := by omega
    rw [h2, Char.ofNat_toNat]
  · have hu : c.toUpper = c := by
      unfold Char.toUpper; rw [if_neg h1]
    rw [hu]

/-- `Char.toUpper` never produces a SQL LIKE metacharacter from a
non-metacharacter: `%` is 37 and `_` is 95, neither in the image `A`–`Z`. -/

theorem char_toUpper_wild (c : Char) (h : c.toUpper = '%' ∨ c.toUpper = '_') :
    c = '%' ∨ c = '_' := by
  by_cases h1 : c.toNat ≥ 97 ∧ c.toNat ≤ 122
  · exfalso
    have hu : c.toUpper = Char.ofNat (c.toNat - 32) := by
      unfold Char.toUpper; rw [if_pos h1]
    have hv : c.toUpper.toNat = c.toNat - 32 := by
      rw [hu]; exact char_toNat_ofNat_valid (by omega)
    rcases h with h | h
    · have h2 := congrArg Char.toNat h
      rw [hv, show Char.toNat '%' = 37 from rfl] at h2
      omega
    · have h2 := congrArg Char.toNat h
      rw [hv, show Char.toNat '_' = 95 from rfl] at h2
      omega
  · have hu : c.toUpper = c := by
      unfold Char.toUpper; rw [if_neg h1]
    rw [hu] at h
    exact h

theorem startsWithSeq_map (f : Char → Char) {n h : List Char}
    (hs : startsWithSeq n h = true) : startsWithSeq (n.map f) (h.map f) = true := by
  induction n generalizing h with
  | nil => simp [startsWithSeq]
  | cons a as ih =>
    cases h with
    | nil => simp [startsWithSeq] at hs
    | cons b bs =>
      simp only [startsWithSeq, Bool.and_eq_true, beq_iff_eq] at hs
      simp only [List.map_cons, startsWithSeq, Bool.and_eq_true, beq_iff_eq]
      exact ⟨by rw [hs.1], ih hs.2⟩

theorem containsSeq_map (f : Char → Char) {n h : List Char}
    (hs : containsSeq n h = true) : containsSeq (n.map f) (h.map f) = true := by
  induction h with
  | nil =>
    simp only [containsSeq] at hs ⊢
    exact startsWithSeq_map f hs
  | cons b bs ih =>
    simp only [containsSeq, Bool.or_eq_true] at hs
    simp only [List.map_cons, containsSeq, Bool.or_eq_true]
    rcases hs with hs | hs
    · exact Or.inl (startsWithSeq_map f hs)
    · exact Or.inr (ih hs)

/-- Case-insensitive containment agrees whether computed through
`toLower` (the client's Python code) or through `toUpper` (the SQL path). -/

theorem containsSeq_lower_iff_upper (n h : List Char) :
    containsSeq (n.map Char.toLower) (h.map Char.toLower) =
      containsSeq (n.map Char.toUpper) (h.map Char.toUpper) := by
  apply Bool.eq_iff_iff.mpr
  constructor
  · intro hl
    have := containsSeq_map Char.toUpper hl
    rw [List.map_map, List.map_map] at this
    have e1 : (Char.toUpper ∘ Char.toLower) = Char.toUpper := by
      funext c; exact char_toUpper_toLower c
    rw [e1] at this
    exact this
  · intro hu
    have := containsSeq_map Char.toLower hu
    rw [List.map_map, List.map_map] at this
    have e1 : (Char.toLower ∘ Char.toUpper) = Char.toLower := by
      funext c; exact char_toLower_toUpper c
    rw [e1] at this
    exact this

theorem likeMatch_percent (ps s : List Char) :
    likeMatch ('%' :: ps) s =
      (likeMatch ps s ||
        (match s with
         | [] => false
         | _ :: s' => likeMatch ('%' :: ps) s')) := by
  rw [likeMatch.eq_def]
  dsimp only
  rw [if_pos rfl]

theorem likeMatch_lit_nil {p : Char} (hp : p ≠ '%') (ps : List Char) :
    likeMatch (p :: ps) [] = false := by
  rw [likeMatch.eq_def]
  dsimp only
  rw [if_neg hp]

theorem likeMatch_lit_cons {p : Char} (hp : p ≠ '%') (hu : p ≠ '_')
    (ps : List Char) (c : Char) (s : List Char) :
    likeMatch (p :: ps) (c :: s) = (p == c && likeMatch ps s) := by
  rw [likeMatch.eq_def]
  dsimp only
  rw [if_neg hp, if_neg hu]

theorem likeMatch_percent_iff (ps s : List Char) :
    likeMatch ('%' :: ps) s = true ↔
      ∃ t, t <:+ s ∧ likeMatch ps t = true := by
  induction s with
  | nil =>
    rw [likeMatch_percent]
    constructor
    · intro hm
      simp only [Bool.or_eq_true] at hm
      rcases hm with hm | hm
      · exact ⟨[], List.suffix_refl _, hm⟩
      · simp at hm
    · rintro ⟨t, ht, hm⟩
      rw [List.suffix_nil] at ht
      subst ht
      simp [hm]
  | cons c cs ih =>
    rw [likeMatch_percent]
    simp only [Bool.or_eq_true]
    constructor
    · intro hm
      rcases hm with hm | hm
      · exact ⟨c :: cs, List.suffix_refl _, hm⟩
      · rcases ih.mp hm with ⟨t, ht, hmt⟩
        exact ⟨t, ht.trans (List.suffix_cons c cs), hmt⟩
    · rintro ⟨t, ⟨u, hu⟩, hmt⟩
      cases u with
      | nil =>
        simp only [List.nil_append] at hu
        subst hu
        exact Or.inl hmt
      | cons x xs =>
        right
        apply ih.mpr
        refine ⟨t, ⟨xs, ?_⟩, hmt⟩
        have h2 : x :: (xs ++ t) = c :: cs := hu
        injection h2 with _ h3

theorem likeMatch_literal_iff {l : List Char} (hw : noWildcards l = true) (s : List Char) :
    likeMatch (l ++ ['%']) s = true ↔ startsWithSeq l s = true := by
  induction l generalizing s with
  | nil =>
    simp only [List.nil_append, startsWithSeq]
    rw [likeMatch_percent_iff]
    constructor
    · intro _; trivial
    · intro _
      exact ⟨[], List.nil_suffix, by rw [likeMatch.eq_def]; rfl⟩
  | cons a as ih =>
    simp only [noWildcards, List.all_cons, Bool.and_eq_true, decide_eq_true_eq,
      ne_eq] at hw
    have ha1 : a ≠ '%' := hw.1.1
    have ha2 : a ≠ '_' := hw.1.2
    have hw' : noWildcards as = true := by
      simpa [noWildcards] using hw.2
    cases s with
    | nil =>
      rw [List.cons_append, likeMatch_lit_nil ha1]
      simp [startsWithSeq]
    | cons b bs =>
      rw [List.cons_append, likeMatch_lit_cons ha1 ha2]
      simp only [startsWithSeq, Bool.and_eq_true]
      constructor
      · rintro ⟨h1, h2⟩
        exact ⟨h1, (ih hw' bs).mp h2⟩
      · rintro ⟨h1, h2⟩
        exact ⟨h1, (ih hw' bs).mpr h2⟩

theorem containsSeq_iff_suffix (l s : List Char) :
    containsSeq l s = true ↔ ∃ t, t <:+ s ∧ startsWithSeq l t = true := by
  induction s with
  | nil =>
    simp only [containsSeq]
    constructor
    · intro hm
      exact ⟨[], List.suffix_refl _, hm⟩
    · rintro ⟨t, ht, hm⟩
      rw [List.suffix_nil] at ht
      subst ht
      exact hm
  | cons b bs ih =>
    simp only [containsSeq, Bool.or_eq_true]
    constructor
    · intro hm
      rcases hm with hm | hm
      · exact ⟨b :: bs, List.suffix_refl _, hm⟩
      · rcases ih.mp hm with ⟨t, ht, hmt⟩
        exact ⟨t, ht.trans (List.suffix_cons b bs), hmt⟩
    · rintro ⟨t, ⟨u, hu⟩, hmt⟩
      cases u with
      | nil =>
        simp only [List.nil_append] at hu
        subst hu
        exact Or.inl hmt
      | cons x xs =>
        right
        apply ih.mpr
        refine ⟨t, ⟨xs, ?_⟩, hmt⟩
        have h2 : x :: (xs ++ t) = b :: bs := hu
        injection h2 with _ h3

/-- Evaluating `LIKE` against the pattern `%l%` with a wildcard-free `l`
is exactly the containment test. -/

theorem likeMatch_wrap_iff {l : List Char} (hw : noWildcards l = true) (s : List Char) :
    likeMatch ('%' :: (l ++ ['%'])) s = containsSeq l s := by
  apply Bool.eq_iff_iff.mpr
  rw [likeMatch_percent_iff, containsSeq_iff_suffix]
  constructor
  · rintro ⟨t, ht, hm⟩
    exact ⟨t, ht, (likeMatch_literal_iff hw t).mp hm⟩
  · rintro ⟨t, ht, hm⟩
    exact ⟨t, ht, (likeMatch_literal_iff hw t).mpr hm⟩

/-! ### Helper lemmas about predicate evaluation -/

theorem evalWhere_build (p : Payload) (row : RawRow) :
    evalWhere (buildPredicates p) row =
      ((boroughPreds p.borough).all (SqlPred.eval row) &&
       (cuisinePreds p.cuisine).all (SqlPred.eval row) &&
       (gradePreds p.min_grade).all (SqlPred.eval row)) := by
  unfold buildPredicates evalWhere
  rw [List.all_append, List.all_append, List.all_append]
  simp [SqlPred.eval, Bool.and_assoc]

theorem borough_value_upper_inj (x y : Borough) :
    (upperStr x.value == upperStr y.value) = (x == y) := by
  revert x y; decide

theorem borough_value_ne_empty (x : Borough) : x.value ≠ "" := by
  cases x <;> decide

theorem boroughPreds_eval (x : Borough) (ob : Option Borough) (row : RawRow)
    (hb : row.boro = .str x.value) :
    (boroughPreds (ob.map Borough.value)).all (SqlPred.eval row) =
      (match ob with | none => true | some b => x == b) := by
  cases ob with
  | none => rfl
  | some b =>
    show (boroughPreds (some b.value)).all (SqlPred.eval row) = (x == b)
    unfold boroughPreds
    dsimp only
    rw [if_pos (borough_value_ne_empty b)]
    simp only [List.all_cons, List.all_nil, Bool.and_true]
    show SqlPred.eval row (.boroughEq (upperStr b.value)) = (x == b)
    unfold SqlPred.eval
    rw [hb]
    exact borough_value_upper_inj x b

theorem noWildcards_upper {l : List Char} (hw : noWildcards l = true) :
    noWildcards (l.map Char.toUpper) = true := by
  simp only [noWildcards, List.all_map, List.all_eq_true, Function.comp] at hw ⊢
  intro c hc
  have h1 := hw c hc
  simp only [Bool.and_eq_true, decide_eq_true_eq] at h1 ⊢
  constructor
  · intro hcontra
    rcases char_toUpper_wild c (Or.inl hcontra) with h | h
    · exact h1.1 h
    · exact h1.2 h
  · intro hcontra
    rcases char_toUpper_wild c (Or.inr hcontra) with h | h
    · exact h1.1 h
    · exact h1.2 h

theorem cuisinePreds_eval (d : String) (oc : Option String) (row : RawRow)
    (hc : row.cuisine_description = .str d)
    (hw : ∀ c, oc = some c → noWildcards c.data = true) :
    (cuisinePreds oc).all (SqlPred.eval row) =
      (match oc with
       | none => true
       | some c =>
         if c = "" then true
         else containsSeq (lowerStr c).data (lowerStr d).data) := by
  cases oc with
  | none => rfl
  | some c =>
    show (cuisinePreds (some c)).all (SqlPred.eval row) =
      (if c = "" then true else containsSeq (lowerStr c).data (lowerStr d).data)
    unfold cuisinePreds
    dsimp only
    by_cases hce : c = ""
    · subst hce
      rfl
    · rw [if_pos hce, if_neg hce]
      simp only [List.all_cons, List.all_nil, Bool.and_true]
      show SqlPred.eval row (.cuisineLike ("%" ++ upperStr c ++ "%")) =
        containsSeq (lowerStr c).data (lowerStr d).data
      unfold SqlPred.eval
      rw [hc]
      dsimp only
      have hdata : ("%" ++ upperStr c ++ "%").data =
          '%' :: ((upperStr c).data ++ ['%']) := by
        simp [String.data_append]
      rw [hdata]
      have hwu : noWildcards (upperStr c).data = true := by
        show noWildcards (c.data.map Char.toUpper) = true
        exact noWildcards_upper (hw c rfl)
      rw [likeMatch_wrap_iff hwu]
      show containsSeq (c.data.map Char.toUpper) (d.data.map Char.toUpper) = _
      rw [← containsSeq_lower_iff_upper]
      rfl

theorem gradePreds_all_congr (x : Option String) (row row' : RawRow)
    (h : row.grade = row'.grade) :
    (gradePreds x).all (SqlPred.eval row) =
      (gradePreds x).all (SqlPred.eval row') := by
  unfold gradePreds
  cases x with
  | none => rfl
  | some g =>
    dsimp only
    by_cases hge : g ≠ ""
    · rw [if_pos hge]
      cases hlg : GRADE_LADDER (upperStr g) with
      | none => rfl
      | some vs =>
        simp only [List.all_cons, List.all_nil, Bool.and_true]
        show SqlPred.eval row (.gradeIn vs) = SqlPred.eval row' (.gradeIn vs)
        unfold SqlPred.eval
        rw [h]
    · rw [if_neg hge]
      rfl

theorem gradePreds_eval (g : Grade) (om : Option Grade) (row : RawRow)
    (hg : row.grade = .str g.value) (hAB : g = .A ∨ g = .B) :
    (gradePreds (om.map Grade.value)).all (SqlPred.eval row) =
      (match om with
       | none => true
       | some m => !(gradeOrder g.value > gradeOrder m.value)) := by
  cases om with
  | none => rfl
  | some m =>
    show (gradePreds (some m.value)).all (SqlPred.eval row) =
      !(gradeOrder g.value > gradeOrder m.value)
    rw [gradePreds_all_congr (some m.value) row { grade := .str g.value }
      (by rw [hg])]
    clear hg
    revert g m
    decide

/-! ### Mock filtering agrees with the live predicate semantics, record by
record, on the fixed client dataset -/

theorem borough_not_ne (x b : Borough) : (!decide (x ≠ b)) = (x == b) := by
  revert x b; decide

theorem boroughSkipOk_eq_live (x : Borough) (ob : Option Borough)
    (r : Restaurant) (hx : r.boro = x) (row : RawRow)
    (hrow : row.boro = .str x.value) :
    boroughSkipOk ob r = (boroughPreds (ob.map Borough.value)).all (SqlPred.eval row) := by
  rw [boroughPreds_eval x ob row hrow]
  cases ob with
  | none => rfl
  | some b =>
    show (!decide (r.boro ≠ b)) = (x == b)
    rw [hx]
    exact borough_not_ne x b

theorem cuisineSkipOk_eq_live (d : String) (oc : Option String)
    (r : Restaurant) (hd : r.cuisine_description = some d)
    (hw : ∀ c, oc = some c → noWildcards c.data = true) (row : RawRow)
    (hrow : row.cuisine_description = .str d) :
    cuisineSkipOk oc r = (cuisinePreds oc).all (SqlPred.eval row) := by
  rw [cuisinePreds_eval d oc row hrow hw]
  cases oc with
  | none => rfl
  | some c =>
    show (if c = "" then true
          else match r.cuisine_description with
               | some d' => containsSeq (lowerStr c).data (lowerStr d').data
               | none => false) = _
    rw [hd]

theorem gradeSkipOk_eq_live (g : Grade) (om : Option Grade)
    (r : Restaurant) (hg' : r.grade = some g) (hAB : g = .A ∨ g = .B)
    (row : RawRow) (hrow : row.grade = .str g.value) :
    gradeSkipOk om r = (gradePreds (om.map Grade.value)).all (SqlPred.eval row) := by
  rw [gradePreds_eval g om row hrow hAB]
  cases om with
  | none => rfl
  | some m =>
    show (!(match r.grade with
            | some g' => gradeOrder g'.value > gradeOrder m.value
            | none => false)) = _
    rw [hg']

/-- Every record of the fixed dataset is kept by the mock loop exactly when
it satisfies the built WHERE predicates of the live path (wildcard-free
cuisine filters). -/

theorem mockKeep_eq_live (req : QueryRequest)
    (hw : ∀ c, req.cuisine = some c → noWildcards c.data = true)
    (r : Restaurant) (hr : r ∈ mockRestaurants) :
    mockKeep req r =
      evalWhere (buildPredicates (toPayload req)) (restaurantToRow r) := by
  rw [evalWhere_build]
  have e1 : (toPayload req).borough = req.borough.map Borough.value := rfl
  have e2 : (toPayload req).cuisine = req.cuisine := rfl
  have e3 : (toPayload req).min_grade = req.min_grade.map Grade.value := rfl
  rw [e1, e2, e3]
  have hr3 : r = mockRestaurants[0] ∨ r = mockRestaurants[1] ∨
      r = mockRestaurants[2] := by
    simpa [mockRestaurants] using hr
  unfold mockKeep
  rcases hr3 with rfl | rfl | rfl
  · rw [boroughSkipOk_eq_live .MANHATTAN req.borough mockRestaurants[0] rfl
        (restaurantToRow mockRestaurants[0]) rfl,
      cuisineSkipOk_eq_live "Pizza" req.cuisine mockRestaurants[0] rfl hw
        (restaurantToRow mockRestaurants[0]) rfl,
      gradeSkipOk_eq_live .A req.min_grade mockRestaurants[0] rfl (Or.inl rfl)
        (restaurantToRow mockRestaurants[0]) rfl]
  · rw [boroughSkipOk_eq_live .BROOKLYN req.borough mockRestaurants[1] rfl
        (restaurantToRow mockRestaurants[1]) rfl,
      cuisineSkipOk_eq_live "Delicatessen" req.cuisine mockRestaurants[1] rfl hw
        (restaurantToRow mockRestaurants[1]) rfl,
      gradeSkipOk_eq_live .B req.min_grade mockRestaurants[1] rfl (Or.inr rfl)
        (restaurantToRow mockRestaurants[1]) rfl]
  · rw [boroughSkipOk_eq_live .QUEENS req.borough mockRestaurants[2] rfl
        (restaurantToRow mockRestaurants[2]) rfl,
      cuisineSkipOk_eq_live "American" req.cuisine mockRestaurants[2] rfl hw
        (restaurantToRow mockRestaurants[2]) rfl,
      gradeSkipOk_eq_live .A req.min_grade mockRestaurants[2] rfl (Or.inl rfl)
        (restaurantToRow mockRestaurants[2]) rfl]

/-! ### List-level helper lemmas -/

theorem normalizeAll_ok_length {rows : List RawRow} {nl : List NormRow}
    (h : normalizeAll rows = .ok nl) : nl.length = rows.length := by
  induction rows generalizing nl with
  | nil =>
    simp only [normalizeAll] at h
    cases h
    rfl
  | cons r rs ih =>
    simp only [normalizeAll] at h
    cases hr : normalizeRow r with
    | error e => rw [hr] at h; cases h
    | ok n =>
      rw [hr] at h
      cases hrs : normalizeAll rs with
      | error e => rw [hrs] at h; cases h
      | ok ns =>
        rw [hrs] at h
        cases h
        simp [ih hrs]

theorem normalizeAll_ok_forall {rows : List RawRow} {nl : List NormRow}
    (h : normalizeAll rows = .ok nl) :
    ∀ r ∈ rows, ∃ n, normalizeRow r = .ok n := by
  induction rows generalizing nl with
  | nil => intro r hr; cases hr
  | cons r rs ih =>
    simp only [normalizeAll] at h
    cases hr : normalizeRow r with
    | error e => rw [hr] at h; cases h
    | ok n =>
      rw [hr] at h
      cases hrs : normalizeAll rs with
      | error e => rw [hrs] at h; cases h
      | ok ns =>
        intro x hx
        rcases List.mem_cons.mp hx with rfl | hx'
        · exact ⟨n, hr⟩
        · exact ih hrs x hx'

theorem coerceLimit_bounds (v : Option LimitInput) :
    1 ≤ coerceLimit v ∧ coerceLimit v ≤ 500 := by
  rcases v with _ | v
  · exact ⟨by decide, by decide⟩
  · rcases v with n | _
    · have e : coerceLimit (some (.intLike n)) = max 1 (min n 500) := rfl
      rw [e]
      exact ⟨le_max_left 1 _, max_le (by decide) (min_le_right n 500)⟩
    · exact ⟨by decide, by decide⟩

theorem execQuery_length (p : Payload) (rows : List RawRow) :
    (execQuery p rows).length ≤ (coerceLimit p.limit).toNat := by
  unfold execQuery
  exact List.length_take_le _ _

theorem gradeIn_eval_iff (vs : List String) (row : RawRow) :
    SqlPred.eval row (.gradeIn vs) = true ↔
      ∃ g, row.grade = .str g ∧ g ∈ vs := by
  unfold SqlPred.eval
  cases hg : row.grade <;> simp [hg]

/-! ## Claims -/

/-- C4: limit coercion yields the default 100 when the input is missing or
not convertible to an integer; 1 when the converted value is 0 or negative;
exactly 500 when the converted value exceeds 500; the value itself
otherwise; and the result is always in `[1, 500]`.  Totality of
`coerceLimit` models that the coercion never raises. -/

theorem C4_coerce_limit (v : Option LimitInput) (n : Int) :
    coerceLimit none = 100 ∧
    coerceLimit (some .notIntLike) = 100 ∧
    (n ≤ 0 → coerceLimit (some (.intLike n)) = 1) ∧
    (500 < n → coerceLimit (some (.intLike n)) = 500) ∧
    (1 ≤ n → n ≤ 500 → coerceLimit (some (.intLike n)) = n) ∧
    (1 ≤ coerceLimit v ∧ coerceLimit v ≤ 500) := by
  have e : ∀ k : Int, coerceLimit (some (.intLike k)) = max 1 (min k 500) :=
    fun _ => rfl
  refine ⟨rfl, rfl, ?_, ?_, ?_, coerceLimit_bounds v⟩
  · intro h
    rw [e]
    rw [min_eq_left (by omega), max_eq_left (by omega)]
  · intro h
    rw [e]
    rw [min_eq_right (by omega), max_eq_right (by omega)]
  · intro h1 h2
    rw [e]
    rw [min_eq_left h2, max_eq_right h1]

/-- C4 witness: the theorem applied at concrete limits 0, 700 and 250. -/

theorem C4_coerce_limit_witness :
    coerceLimit (some (.intLike 0)) = 1 ∧
    coerceLimit (some (.intLike 700)) = 500 ∧
    coerceLimit (some (.intLike 250)) = 250 ∧
    (1 ≤ coerceLimit (some (.intLike 700)) ∧
      coerceLimit (some (.intLike 700)) ≤ 500) :=
  ⟨(C4_coerce_limit none 0).2.2.1 (by decide),
   (C4_coerce_limit none 700).2.2.2.1 (by decide),
   (C4_coerce_limit none 250).2.2.2.2.1 (by decide) (by decide),
   (C4_coerce_limit (some (.intLike 700)) 0).2.2.2.2.2⟩

/-- C9: `query_info.mock_data` is `true` on both mock responders' envelopes
and the key is absent (hence never `true`) on every successful live-path
envelope. -/

theorem C9_mock_data_flag :
    (∀ p : Payload, (mockResponse p).query_info.mock_data = some true) ∧
    (∀ req : QueryRequest, (getMockData req).query_info.mock_data = some true) ∧
    (∀ (rows : List RawRow) (p : Payload) (resp : ServerResponse),
      queryRestaurants (.table rows) p = .ok resp →
      resp.query_info.mock_data = none) := by
  refine ⟨fun _ => rfl, fun _ => rfl, ?_⟩
  intro rows p resp h
  unfold queryRestaurants at h
  dsimp only at h
  cases hn : normalizeAll (execQuery p rows) with
  | error e => rw [hn] at h; cases h
  | ok nrows =>
    rw [hn] at h
    cases h
    rfl

/-- C9 witness: the theorem applied to the two mocks and to a concrete
successful live query over an empty table. -/

theorem C9_mock_data_flag_witness :
    (mockResponse {}).query_info.mock_data = some true ∧
    (getMockData {}).query_info.mock_data = some true ∧
    ({ restaurants := [], total_count := 0,
       query_info := { filters_applied := .ofApplied (buildApplied {}),
                       table := BQ_TABLE } } : ServerResponse).query_info.mock_data
      = none :=
  ⟨C9_mock_data_flag.1 {}, C9_mock_data_flag.2.1 {},
   C9_mock_data_flag.2.2 [] {} _ rfl⟩

/-- C6 counterexample: constructing a request with `min_grade = "Z"` (or
`"P"`) succeeds — `Z` and `P` are members of the `Grade` enumeration, so
pydantic validation accepts them rather than failing. -/

theorem C6_counterexample :
    validateMinGrade (some "Z") = .ok (some .Z) ∧
    validateMinGrade (some "P") = .ok (some .P) := ⟨rfl, rfl⟩

/-- C6 (amended): construction rejects (with a validation error naming the
field) exactly the strings outside the `Grade` enumeration; `"Z"` and `"P"`
are accepted at construction, and are instead neutralized downstream — the
query builder omits the grade predicate for them. -/

theorem C6_amended (s : String)
    (hs : s ≠ "A" ∧ s ≠ "B" ∧ s ≠ "C" ∧ s ≠ "P" ∧ s ≠ "Z") :
    validateMinGrade (some s) =
      .error "validation error for QueryRequest: min_grade is not a valid Grade" ∧
    validateMinGrade (some "Z") = .ok (some .Z) ∧
    validateMinGrade (some "P") = .ok (some .P) ∧
    gradePreds (some "Z") = [] ∧ gradePreds (some "P") = [] := by
  refine ⟨?_, rfl, rfl, rfl, rfl⟩
  unfold validateMinGrade validateGrade
  dsimp only
  rw [if_neg hs.1, if_neg hs.2.1, if_neg hs.2.2.1, if_neg hs.2.2.2.1,
    if_neg hs.2.2.2.2]
  rfl

/-- C6 witness: the amended theorem applied at the unrecognized value "X". -/

theorem C6_amended_witness :
    validateMinGrade (some "X") =
      .error "validation error for QueryRequest: min_grade is not a valid Grade" ∧
    validateMinGrade (some "Z") = .ok (some .Z) ∧
    validateMinGrade (some "P") = .ok (some .P) ∧
    gradePreds (some "Z") = [] ∧ gradePreds (some "P") = [] :=
  C6_amended "X" (by refine ⟨?_, ?_, ?_, ?_, ?_⟩ <;> decide)

/-- C10 counterexample: the payloads `{min_grade: "A"}` and
`{min_grade: "Z"}` enable the same set of filter fields (same presence of
borough, cuisine and min_grade), yet the builder produces different query
text — the text depends on the min_grade value, not only on which fields
are present. -/

theorem C10_counterexample :
    ({ min_grade := some "A" } : Payload).borough.isSome =
      ({ min_grade := some "Z" } : Payload).borough.isSome ∧
    ({ min_grade := some "A" } : Payload).cuisine.isSome =
      ({ min_grade := some "Z" } : Payload).cuisine.isSome ∧
    ({ min_grade := some "A" } : Payload).min_grade.isSome =
      ({ min_grade := some "Z" } : Payload).min_grade.isSome ∧
    queryText { min_grade := some "A" } ≠ queryText { min_grade := some "Z" } := by
  refine ⟨rfl, rfl, rfl, ?_⟩
  decide

theorem boroughPreds_text (ob : Option String) :
    (boroughPreds ob).map SqlPred.text =
      cond (fieldTruthy ob) ["UPPER(boro) = @borough"] [] := by
  cases ob with
  | none => rfl
  | some b =>
    by_cases hbe : b = ""
    · subst hbe; rfl
    · simp [boroughPreds, fieldTruthy, hbe, SqlPred.text]

theorem cuisinePreds_text (oc : Option String) :
    (cuisinePreds oc).map SqlPred.text =
      cond (fieldTruthy oc) ["UPPER(cuisine_description) LIKE @cuisine"] [] := by
  cases oc with
  | none => rfl
  | some c =>
    by_cases hce : c = ""
    · subst hce; rfl
    · simp [cuisinePreds, fieldTruthy, hce, SqlPred.text]

theorem gradePreds_text (og : Option String) :
    (gradePreds og).map SqlPred.text =
      cond (gradeActive og) ["grade IN UNNEST(@grades)"] [] := by
  cases og with
  | none => rfl
  | some g =>
    by_cases hge : g = ""
    · subst hge; rfl
    · unfold gradePreds gradeActive
      dsimp only
      rw [if_pos hge, if_pos hge]
      cases GRADE_LADDER (upperStr g) with
      | none => rfl
      | some vs => rfl

/-- C10 (amended): the query text is a function of which predicates are
activated — the truthiness of borough and cuisine and the success of the
min_grade ladder lookup — and of nothing else; in particular no filter
value ever appears in the text (values travel only in the bound
parameters).  Two payloads that activate the same predicates produce
identical text, even with different values. -/

theorem C10_amended (p q : Payload)
    (hb : fieldTruthy p.borough = fieldTruthy q.borough)
    (hc : fieldTruthy p.cuisine = fieldTruthy q.cuisine)
    (hg : gradeActive p.min_grade = gradeActive q.min_grade) :
    queryText p = queryText q := by
  have h : (buildPredicates p).map SqlPred.text =
      (buildPredicates q).map SqlPred.text := by
    unfold buildPredicates
    simp only [List.map_append]
    rw [boroughPreds_text, boroughPreds_text, cuisinePreds_text,
      cuisinePreds_text, gradePreds_text, gradePreds_text, hb, hc, hg]
  unfold queryText
  rw [h]

/-- C10 witness: identical query text for min_grade "A" versus "B" (all
presence flags agree). -/

theorem C10_amended_witness :
    queryText { min_grade := some "A" } = queryText { min_grade := some "B" } :=
  C10_amended { min_grade := some "A" } { min_grade := some "B" }
    rfl rfl (by decide)

/-- C8 counterexample: in the client mock envelope for limit 1,
`total_count` is the pre-truncation match count 3 while the record list has
length 1, so `total_count` is not the length of the records sequence. -/

theorem C8_counterexample :
    (getMockData { limit := 1 }).total_count ≠
      (getMockData { limit := 1 }).restaurants.length := by
  decide

/-- C8 (amended): `total_count` equals the record-list length in every
successful live envelope and in the server mock envelope; in the client
mock envelope `total_count` is instead the pre-truncation match count,
which bounds the record-list length from above whenever the requested
limit is nonnegative. -/

theorem C8_amended :
    (∀ (rows : List RawRow) (p : Payload) (resp : ServerResponse),
      queryRestaurants (.table rows) p = .ok resp →
      resp.total_count = resp.restaurants.length) ∧
    (∀ p : Payload,
      (mockResponse p).total_count = (mockResponse p).restaurants.length) ∧
    (∀ req : QueryRequest,
      (getMockData req).total_count = (mockFiltered req).length ∧
      (0 ≤ req.limit →
        (getMockData req).restaurants.length ≤ (getMockData req).total_count)) := by
  refine ⟨?_, fun _ => rfl, ?_⟩
  · intro rows p resp h
    unfold queryRestaurants at h
    dsimp only at h
    cases hn : normalizeAll (execQuery p rows) with
    | error e => rw [hn] at h; cases h
    | ok nrows =>
      rw [hn] at h
      cases h
      rfl
  · intro req
    refine ⟨rfl, fun hlim => ?_⟩
    show (pySliceTo req.limit (mockFiltered req)).length ≤ (mockFiltered req).length
    unfold pySliceTo
    rw [if_pos hlim]
    rw [List.length_take]
    exact min_le_right _ _

/-- C8 witness: the amended theorem applied to a concrete live query over
an empty table and to the default client request. -/

theorem C8_amended_witness :
    ({ restaurants := [], total_count := 0,
       query_info := { filters_applied := .ofApplied (buildApplied {}),
                       table := BQ_TABLE } } : ServerResponse).total_count =
      ({ restaurants := [], total_count := 0,
         query_info := { filters_applied := .ofApplied (buildApplied {}),
                         table := BQ_TABLE } } : ServerResponse).restaurants.length ∧
    (getMockData {}).total_count = (mockFiltered {}).length ∧
    (getMockData {}).restaurants.length ≤ (getMockData {}).total_count :=
  ⟨C8_amended.1 [] {} _ rfl, (C8_amended.2.2 {}).1,
   (C8_amended.2.2 {}).2 (by decide)⟩

/-- C7 counterexample: the client accepts a request with the negative limit
-1 (its limit field is an unvalidated integer); the mock path then slices
`[:-1]`, returning 2 of the 3 matching records, and `2 ≤ -1` fails — the
record count is not bounded by the filter's limit. -/

theorem C7_counterexample :
    ¬ (((getMockData { limit := -1 }).restaurants.length : Int) ≤
        ({ limit := -1 } : QueryRequest).limit) := by
  decide

/-- C7 (amended): the record count is bounded by the effective (coerced)
limit on both server paths — live results are truncated by `LIMIT @limit`
and the server mock returns a single record against a coerced limit that is
at least 1 — and by the request's own limit on the client mock path
whenever that limit is nonnegative. -/

theorem C7_amended :
    (∀ (rows : List RawRow) (p : Payload) (resp : ServerResponse),
      queryRestaurants (.table rows) p = .ok resp →
      ((resp.restaurants.length : Int) ≤ coerceLimit p.limit)) ∧
    (∀ p : Payload,
      ((mockResponse p).restaurants.length : Int) ≤ coerceLimit p.limit) ∧
    (∀ req : QueryRequest, 0 ≤ req.limit →
      ((getMockData req).restaurants.length : Int) ≤ req.limit) := by
  refine ⟨?_, ?_, ?_⟩
  · intro rows p resp h
    unfold queryRestaurants at h
    dsimp only at h
    cases hn : normalizeAll (execQuery p rows) with
    | error e => rw [hn] at h; cases h
    | ok nrows =>
      rw [hn] at h
      cases h
      show ((nrows.length : Int)) ≤ coerceLimit p.limit
      have h1 : nrows.length = (execQuery p rows).length :=
        normalizeAll_ok_length hn
      have h2 := execQuery_length p rows
      have h3 := (coerceLimit_bounds p.limit).1
      omega
  · intro p
    have h3 := (coerceLimit_bounds p.limit).1
    show ((1 : Nat) : Int) ≤ coerceLimit p.limit
    omega
  · intro req hlim
    show ((pySliceTo req.limit (mockFiltered req)).length : Int) ≤ req.limit
    unfold pySliceTo
    rw [if_pos hlim]
    rw [List.length_take]
    have : min req.limit.toNat (mockFiltered req).length ≤ req.limit.toNat :=
      min_le_left _ _
    omega

/-- C7 witness: the amended theorem applied to a concrete live query over
an empty table, the server mock, and the default client request. -/

theorem C7_amended_witness :
    ((([] : List NormRow).length : Int) ≤ coerceLimit (none : Option LimitInput)) ∧
    (((mockResponse {}).restaurants.length : Int) ≤ coerceLimit ({} : Payload).limit) ∧
    (((getMockData {}).restaurants.length : Int) ≤ ({} : QueryRequest).limit) :=
  ⟨C7_amended.1 [] {}
      ({ restaurants := [], total_count := 0,
         query_info := { filters_applied := .ofApplied (buildApplied {}),
                         table := BQ_TABLE } } : ServerResponse) rfl,
   C7_amended.2.1 {},
   C7_amended.2.2 {} (by decide)⟩

/-- C3 counterexample: with the warehouse collaborator configured but its
query raising (for example a connection timeout at execution time), the
server's query operation returns the 500 error object, not the Mock
Responder's envelope — refuting "if the warehouse collaborator fails in any
way, the query operation returns the Mock Responder's envelope". -/

theorem C3_counterexample :
    queryRestaurants (.failing "connection timeout") {} =
      .err "connection timeout" ∧
    queryRestaurants (.failing "connection timeout") {} ≠
      .ok (mockResponse {}) := by
  refine ⟨rfl, ?_⟩
  decide

/-- C3 (amended): the server falls back to its mock envelope only when the
warehouse client is unconfigured (`bq_client` is `None`); a raising query
surfaces as an error response.  The CLI client, however, absorbs every
`RequestException` — transport failure or non-2xx status, including that
500 — by returning its own mock envelope (flagged `mock_data = true`), so
the end caller never receives a transport-level failure as an error. -/

theorem C3_amended (p : Payload) (e : String) (req : QueryRequest)
    (o : ServerOutcome) (ho : ∀ resp, o ≠ .success resp) :
    queryRestaurants .absent p = .ok (mockResponse p) ∧
    queryRestaurants (.failing e) p = .err e ∧
    clientQueryRestaurants o req = getMockData req ∧
    (clientQueryRestaurants o req).query_info.mock_data = some true := by
  refine ⟨rfl, rfl, ?_, ?_⟩
  · cases o with
    | unreachable => rfl
    | httpError s => rfl
    | success resp => exact absurd rfl (ho resp)
  · cases o with
    | unreachable => rfl
    | httpError s => rfl
    | success resp => exact absurd rfl (ho resp)

/-- C3 witness: the amended theorem applied at a concrete unreachable
outcome. -/

theorem C3_amended_witness :
    queryRestaurants .absent {} = .ok (mockResponse {}) ∧
    queryRestaurants (.failing "timeout") {} = .err "timeout" ∧
    clientQueryRestaurants .unreachable {} = getMockData {} ∧
    (clientQueryRestaurants .unreachable {}).query_info.mock_data = some true :=
  C3_amended {} "timeout" {} .unreachable (fun _ h => by cases h)

/-- C2 counterexample: a row whose latitude is present but not numeric-like
makes normalization raise (`ValueError`), and because the row loop sits in
the endpoint's single `try` block, the whole response becomes the error
object — the well-formed row of the same result set is not returned. -/

theorem C2_counterexample :
    normalizeRow badLatRow =
      .error "ValueError: could not convert string to float" ∧
    queryRestaurants (.table [goodRow, badLatRow]) {} =
      .err "ValueError: could not convert string to float" ∧
    (normalizeRow goodRow).isOk = true := by
  refine ⟨rfl, ?_, rfl⟩
  rfl

/-- C2 (amended): latitude/longitude normalization yields the field absent
exactly when the raw value is absent (`None`) and succeeds on numeric
values, but a present non-numeric-like value raises a conversion error
instead of yielding absence; and any raising row fails the whole batch —
`normalizeAll` cannot succeed, and the endpoint returns the error object —
rather than dropping the single row. -/

theorem C2_amended (q : ℚ) (s : String) (hs : parsePyFloat s = none)
    (rows : List RawRow) (r : RawRow) (hr : r ∈ rows)
    (he : ∃ e, normalizeRow r = .error e)
    (rows2 : List RawRow) (p : Payload) (e2 : String)
    (hn2 : normalizeAll (execQuery p rows2) = .error e2) :
    normFloat (.num q) = .ok (some q) ∧
    normFloat .null = .ok none ∧
    normFloat (.str s) =
      .error "ValueError: could not convert string to float" ∧
    (∀ nl, normalizeAll rows ≠ .ok nl) ∧
    queryRestaurants (.table rows2) p = .err e2 := by
  refine ⟨rfl, rfl, ?_, ?_, ?_⟩
  · unfold normFloat pyFloat
    rw [if_neg (by simp)]
    dsimp only
    rw [hs]
    rfl
  · intro nl hok
    rcases he with ⟨e, he⟩
    rcases normalizeAll_ok_forall hok r hr with ⟨n, hn⟩
    rw [hn] at he
    cases he
  · unfold queryRestaurants
    dsimp only
    rw [hn2]

/-- C2 witness: the amended theorem applied at the concrete bad row. -/

theorem C2_amended_witness :
    normFloat (.num 1) = .ok (some 1) ∧
    normFloat .null = .ok none ∧
    normFloat (.str "not-a-number") =
      .error "ValueError: could not convert string to float" ∧
    (∀ nl, normalizeAll [badLatRow] ≠ .ok nl) ∧
    queryRestaurants (.table [badLatRow]) {} =
      .err "ValueError: could not convert string to float" :=
  C2_amended 1 "not-a-number" (by decide) [badLatRow] badLatRow
    (List.mem_singleton.mpr rfl)
    ⟨"ValueError: could not convert string to float", rfl⟩
    [badLatRow] {} "ValueError: could not convert string to float" rfl

/-- C5: for a requested minimum grade in {A, B, C} the built grade predicate
holds of a row exactly when its grade is present and lies in the ladder set
(A→{A}, B→{A,B}, C→{A,B,C}); a row with an absent (NULL) grade never
satisfies it; for P or Z the grade predicate is omitted entirely from the
built query; and on the mock dataset the client's grade filter keeps a
record exactly when its grade lies in the same ladder set. -/

theorem C5_min_grade_semantics (m : Grade) (row : RawRow) (p : Payload) :
    ((m = .A ∨ m = .B ∨ m = .C) →
      ((gradePreds (some m.value)).all (SqlPred.eval row) = true ↔
        ∃ g, row.grade = .str g ∧ g ∈ (GRADE_LADDER m.value).getD [])) ∧
    (row.grade = .null → (m = .A ∨ m = .B ∨ m = .C) →
      (gradePreds (some m.value)).all (SqlPred.eval row) = false) ∧
    ((m = .P ∨ m = .Z) →
      buildPredicates { p with min_grade := some m.value } =
        buildPredicates { p with min_grade := none }) ∧
    (∀ r ∈ mockRestaurants, (m = .A ∨ m = .B ∨ m = .C) →
      (gradeSkipOk (some m) r = true ↔
        ∃ g, r.grade = some g ∧ g.value ∈ (GRADE_LADDER m.value).getD [])) := by
  refine ⟨?_, ?_, ?_, ?_⟩
  · intro hm
    rcases hm with rfl | rfl | rfl
    · rw [show gradePreds (some Grade.A.value) = [.gradeIn ["A"]] from rfl]
      simp only [List.all_cons, List.all_nil, Bool.and_true]
      exact gradeIn_eval_iff ["A"] row
    · rw [show gradePreds (some Grade.B.value) = [.gradeIn ["A", "B"]] from rfl]
      simp only [List.all_cons, List.all_nil, Bool.and_true]
      exact gradeIn_eval_iff ["A", "B"] row
    · rw [show gradePreds (some Grade.C.value) = [.gradeIn ["A", "B", "C"]] from rfl]
      simp only [List.all_cons, List.all_nil, Bool.and_true]
      exact gradeIn_eval_iff ["A", "B", "C"] row
  · intro hnull hm
    rcases hm with rfl | rfl | rfl <;>
      rw [gradePreds_all_congr _ row { grade := RawVal.null } (by rw [hnull])] <;>
      decide
  · intro hm
    rcases hm with rfl | rfl <;> rfl
  · intro r hr hm
    have hr3 : r = mockRestaurants[0] ∨ r = mockRestaurants[1] ∨
        r = mockRestaurants[2] := by
      simpa [mockRestaurants] using hr
    rcases hr3 with rfl | rfl | rfl <;> rcases hm with rfl | rfl | rfl <;>
      constructor <;> intro h
    · exact ⟨.A, rfl, by decide⟩
    · rfl
    · exact ⟨.A, rfl, by decide⟩
    · rfl
    · exact ⟨.A, rfl, by decide⟩
    · rfl
    · exact absurd h (by decide)
    · rcases h with ⟨g, hg, hmem⟩
      cases hg
      exact absurd hmem (by decide)
    · exact ⟨.B, rfl, by decide⟩
    · rfl
    · exact ⟨.B, rfl, by decide⟩
    · rfl
    · exact ⟨.A, rfl, by decide⟩
    · rfl
    · exact ⟨.A, rfl, by decide⟩
    · rfl
    · exact ⟨.A, rfl, by decide⟩
    · rfl

/-- C5 witness: the theorem applied at concrete rows and grades, covering
each hypothesis shape (a ladder grade on a graded row, an absent grade,
an omitted P/Z predicate, and a mock-dataset record). -/

theorem C5_min_grade_semantics_witness :
    ((gradePreds (some Grade.A.value)).all (SqlPred.eval goodRow) = true ↔
      ∃ g, goodRow.grade = .str g ∧ g ∈ (GRADE_LADDER Grade.A.value).getD []) ∧
    (gradePreds (some Grade.B.value)).all (SqlPred.eval badLatRow) = false ∧
    buildPredicates { ({} : Payload) with min_grade := some Grade.Z.value } =
      buildPredicates { ({} : Payload) with min_grade := none } ∧
    (gradeSkipOk (some .A) mockRestaurants[0] = true ↔
      ∃ g, mockRestaurants[0].grade = some g ∧
        g.value ∈ (GRADE_LADDER Grade.A.value).getD []) :=
  ⟨(C5_min_grade_semantics .A goodRow {}).1 (Or.inl rfl),
   (C5_min_grade_semantics .B badLatRow {}).2.1 rfl (Or.inr (Or.inl rfl)),
   (C5_min_grade_semantics .Z goodRow {}).2.2.1 (Or.inr rfl),
   (C5_min_grade_semantics .A goodRow {}).2.2.2 mockRestaurants[0]
     (by simp [mockRestaurants]) (Or.inl rfl)⟩

/-- C1 counterexample: the server-side Mock Responder ignores the filter:
for the payload `{borough: "BROOKLYN"}` its response still contains the one
fixed MANHATTAN record, which does not satisfy borough equality with the
filter — the response is not the matching subset of the fixed dataset. -/

theorem C1_counterexample :
    (mockResponse { borough := some "BROOKLYN" }).restaurants.map NormRow.boro =
      [RawVal.str "MANHATTAN"] ∧
    SqlPred.eval { boro := .str "MANHATTAN" }
      (.boroughEq (upperStr "BROOKLYN")) = false := by
  refine ⟨rfl, ?_⟩
  decide

/-- C1 (amended): the client-side Mock Responder
(`AgentClient._get_mock_data`) does return exactly the records of its fixed
dataset that satisfy the live Query Builder's predicate semantics —
borough equality, upper-cased LIKE containment for the cuisine, grade
ladder membership — truncated to the request's limit, for every request
whose cuisine filter contains no SQL LIKE metacharacter and whose limit is
nonnegative; the server-side `_mock_response` does not filter at all (see
the counterexample). -/

theorem C1_client_mock_matches_live (req : QueryRequest)
    (hw : ∀ c, req.cuisine = some c → noWildcards c.data = true)
    (hlim : 0 ≤ req.limit) :
    (getMockData req).restaurants =
      (mockRestaurants.filter
        (fun r => evalWhere (buildPredicates (toPayload req))
          (restaurantToRow r))).take req.limit.toNat := by
  show pySliceTo req.limit (mockFiltered req) = _
  unfold pySliceTo
  rw [if_pos hlim]
  unfold mockFiltered
  rw [List.filter_congr (fun r hr => mockKeep_eq_live req hw r hr)]

/-- C1 witness: the amended theorem applied at the concrete request
`{borough: MANHATTAN, cuisine: "pizza", min_grade: A, limit: 5}`. -/

theorem C1_client_mock_matches_live_witness :
    (getMockData
        { borough := some .MANHATTAN, cuisine := some "pizza",
          min_grade := some .A, limit := 5 }).restaurants =
      (mockRestaurants.filter
        (fun r => evalWhere
          (buildPredicates (toPayload
            { borough := some .MANHATTAN, cuisine := some "pizza",
              min_grade := some .A, limit := 5 }))
          (restaurantToRow r))).take (5 : Int).toNat :=
  C1_client_mock_matches_live
    { borough := some .MANHATTAN, cuisine := some "pizza",
      min_grade := some .A, limit := 5 }
    (fun c hc => by
      simp only [Option.some.injEq] at hc
      subst hc
      decide)
    (by decide)

end NYCRF
